import Mathlib

/-!
Verification of the gdx-viewer query server against its specification.

The definitions below are shallow embeddings of the TypeScript sources:
  * `src/server/filterTypes.ts` — filter types, `buildWhereClause`,
    `isFatalDuckDbError`, `sanitizeErrorMessage`, the request dispatcher's
    fatal-error recovery in `GdxServer.handleMessage`, the background
    materialization worker, and the `getDomainValues` request handler.
  * `src/duckdb/gdxDocumentManager.ts` — `DuckdbService.getDomainValues`
    (SQL construction with `dimension_filters`), `DuckdbService.registerFile`,
    `DuckdbService.reinitialize` and `DuckdbService.dispose` (temp-file
    lifecycle).

JavaScript strings are modelled as Lean `String`s (Unicode scalar values);
JavaScript numbers that are only ever rendered into SQL text are modelled
by their decimal rendering (a `String`).
-/

/- ### Basic string helpers (JS semantics) -/

/-- The character class of the JavaScript regex `\s` (WhiteSpace and line
terminators), used by `.trim()` and by the frame-line pattern `\s+`. -/
def isJsSpace (c : Char) : Bool :=
  c == ' ' || c == '\t' || c == '\n' || c == '\r' ||
  c.toNat == 0x0b || c.toNat == 0x0c || c.toNat == 0xa0 || c.toNat == 0x1680 ||
  (decide (0x2000 ≤ c.toNat) && decide (c.toNat ≤ 0x200a)) ||
  c.toNat == 0x2028 || c.toNat == 0x2029 || c.toNat == 0x202f ||
  c.toNat == 0x205f || c.toNat == 0x3000 || c.toNat == 0xfeff

/-- ASCII lower-casing of a character (sufficient for the case-insensitive
match of the all-ASCII fatal pattern). -/
def toLowerAscii (c : Char) : Char :=
  if decide ( 'A' ≤ c) && decide (c ≤ 'Z') then Char.ofNat (c.toNat + 32) else c

/-- Whether `pat` occurs as a prefix of `l` (character lists). -/
def listPrefixOf : List Char → List Char → Bool
  | [], _ => true
  | _ :: _, [] => false
  | a :: as, b :: bs => a == b && listPrefixOf as bs

/-- Whether `pat` occurs as a contiguous substring of `l`. -/
def listContainsSub (pat : List Char) : List Char → Bool
  | [] => pat.isEmpty
  | b :: bs => listPrefixOf pat (b :: bs) || listContainsSub pat bs

/-- Index of the first occurrence of `pat` in `l`, as in JS `String.indexOf`. -/
def findSubIdx (pat : List Char) : List Char → Option Nat
  | [] => if pat.isEmpty then some 0 else none
  | b :: bs =>
    if listPrefixOf pat (b :: bs) then some 0
    else (findSubIdx pat bs).map (· + 1)

/-- JS `String.prototype.trim`: remove `\s` characters from both ends. -/
def jsTrim (l : List Char) : List Char :=
  ((l.dropWhile isJsSpace).reverse.dropWhile isJsSpace).reverse

/-- JS `v.replace(/'/g, "''")` — double every single quote. -/
def escapeSqlQuote (s : String) : String :=
  String.mk (s.data.foldr (fun c acc => if c == '\x27' then '\x27' :: '\x27' :: acc else c :: acc) [])

/- ### Filter types (`src/server/filterTypes.ts`) -/

/-- Embedding of `NumericFilterState` from `filterTypes.ts`.  `min`/`max` hold the decimal
rendering of the JS number when present (the compiler only ever interpolates
them into SQL text). -/
structure NumericFilterState where
  min : Option String
  max : Option String
  exclude : Bool
  showEPS : Bool
  showNA : Bool
  showPosInf : Bool
  showNegInf : Bool
  showUNDF : Bool
  showAcronyms : Bool
deriving DecidableEq, Repr

/-- Embedding of `FilterValue = NumericFilterState | TextFilterState`; the discriminator in
the source is the presence of the `exclude` field (`isNumericFilter`). -/
inductive FilterValue where
  | numeric (s : NumericFilterState)
  | text (selectedValues : List String)
deriving DecidableEq, Repr

/-- Embedding of `ColumnFilter` from `filterTypes.ts`. -/
structure ColumnFilter where
  columnName : String
  filterValue : FilterValue
deriving DecidableEq, Repr

/- ### The filter compiler `buildWhereClause` (filterTypes.ts:700-767) -/

/-- The `excludedSpecialValues` list built for a numeric filter
(filterTypes.ts:720-732): `EPS`, `NA`, `UNDF` when their flag is false, then
`+INF` / `-INF` when `showPosInf` / `showNegInf` are false. -/
def excludedSpecialValues (f : NumericFilterState) : List String :=
  (if f.showEPS then [] else ["EPS"]) ++
  (if f.showNA then [] else ["NA"]) ++
  (if f.showUNDF then [] else ["UNDF"]) ++
  (if f.showPosInf then [] else ["+INF"]) ++
  (if f.showNegInf then [] else ["-INF"])

/-- The flag `hasDisabledSpecialValues` (filterTypes.ts:709-714). -/
def hasDisabledSpecialValues (f : NumericFilterState) : Bool :=
  !f.showEPS || !f.showNA || !f.showPosInf || !f.showNegInf || !f.showUNDF

/-- The `conditions` array built for one numeric filter
(filterTypes.ts:707-744): infinity inequalities, then the `NOT IN` list over
`excludedSpecialValues` when non-empty, then the range bounds. -/
def numericConditions (columnName : String) (f : NumericFilterState) : List String :=
  (if f.showPosInf then []
   else ["\"" ++ columnName ++ "\" != CAST(\x27Infinity\x27 AS DOUBLE)"]) ++
  (if f.showNegInf then []
   else ["\"" ++ columnName ++ "\" != CAST(\x27-Infinity\x27 AS DOUBLE)"]) ++
  (if (excludedSpecialValues f).length > 0 then
     ["CAST(\"" ++ columnName ++ "\" AS VARCHAR) NOT IN (" ++
       String.intercalate ", " ((excludedSpecialValues f).map (fun v => "\x27" ++ v ++ "\x27")) ++ ")"]
   else []) ++
  (match f.min with
   | some m => ["\"" ++ columnName ++ "\" >= " ++ m]
   | none => []) ++
  (match f.max with
   | some m => ["\"" ++ columnName ++ "\" <= " ++ m]
   | none => [])

/-- The clause contributed by one `ColumnFilter` (`none` when the filter is
skipped), following filterTypes.ts:703-760. -/
def clauseOfFilter (filter : ColumnFilter) : Option String :=
  match filter.filterValue with
  | .numeric f =>
    if !hasDisabledSpecialValues f && f.min = none && f.max = none then none
    else
      let conditions := numericConditions filter.columnName f
      if conditions.length > 0 then
        let clause := String.intercalate " AND " conditions
        some ("(" ++ (if f.exclude then "NOT (" ++ clause ++ ")" else clause) ++ ")")
      else none
  | .text selectedValues =>
    if selectedValues.length = 0 then none
    else
      let valueList :=
        String.intercalate ", " (selectedValues.map (fun v => "\x27" ++ escapeSqlQuote v ++ "\x27"))
      some ("\"" ++ filter.columnName ++ "\" IN (" ++ valueList ++ ")")

/-- The compiler `buildWhereClause` (filterTypes.ts:700-767): join the per-filter clauses
with `AND`, prefixed by `WHERE`; empty input (or all filters skipped) yields
the empty string. -/
def buildWhereClause (filters : List ColumnFilter) : String :=
  let clauses := filters.filterMap clauseOfFilter
  if clauses.length = 0 then ""
  else " WHERE " ++ String.intercalate " AND " clauses

/-- Toggling the `showAcronyms` flag of a filter (identity on text filters). -/
def toggleShowAcronyms (filter : ColumnFilter) : ColumnFilter :=
  match filter.filterValue with
  | .numeric f => { filter with filterValue := .numeric { f with showAcronyms := !f.showAcronyms } }
  | .text _ => filter

/- ### Error classification and sanitization (filterTypes.ts:769-794) -/

/-- The fatal pattern, lower-cased: `database has been invalidated`. -/
def fatalPattern : List Char := "database has been invalidated".data

/-- The classifier `isFatalDuckDbError` (filterTypes.ts:769-771):
`/database has been invalidated/i.test(message)`. -/
def isFatalDuckDbError (message : String) : Bool :=
  listContainsSub fatalPattern (message.data.map toLowerAscii)

/-- The fixed friendly sentence substituted for fatal errors
(filterTypes.ts:776). -/
def friendlyFatalMessage : String :=
  "The GDX file could not be read. It may have been modified or deleted externally. The viewer will attempt to recover automatically."

/-- Try to match `\d+\s+(<lit0>|<lit1>)[^\n]*` at the start of `l` (the part
of the frame-line regex after its leading `\n`).  On success return the
remainder of the input after the greedy `[^\n]*`; greediness of `\d+` and
`\s+` needs no backtracking because neither literal starts with a digit or a
whitespace character. -/
def frameTail (lit0 lit1 : List Char) (l : List Char) : Option (List Char) :=
  if (l.takeWhile Char.isDigit).isEmpty then none
  else
    let r1 := l.dropWhile Char.isDigit
    if (r1.takeWhile isJsSpace).isEmpty then none
    else
      let r2 := r1.dropWhile isJsSpace
      if listPrefixOf lit0 r2 || listPrefixOf lit1 r2 then
        some (r2.dropWhile (fun c => !(c == '\n')))
      else none

/-- Left-to-right scan deleting every match of `\n\d+\s+(<lit0>|<lit1>)[^\n]*`,
as JS `String.replace` with a global regex does; `fuel` bounds the recursion
(every step consumes at least one character, so `fuel = l.length` suffices). -/
def removeFrameSegsAux (lit0 lit1 : List Char) : Nat → List Char → List Char
  | 0, l => l
  | _ + 1, [] => []
  | fuel + 1, c :: rest =>
    if c == '\n' then
      match frameTail lit0 lit1 rest with
      | some r => removeFrameSegsAux lit0 lit1 fuel r
      | none => c :: removeFrameSegsAux lit0 lit1 fuel rest
    else c :: removeFrameSegsAux lit0 lit1 fuel rest

/-- The statement `message.replace` with the global frame regex
(filterTypes.ts:785). -/
def removeFrameSegs (l : List Char) : List Char :=
  removeFrameSegsAux "duckdb::".data "0x".data l.length l

/-- The sanitizer `sanitizeErrorMessage` (filterTypes.ts:773-794): fatal messages become the
friendly sentence; otherwise text from `Stack Trace:` onward is cut (then
trimmed), frame segments are deleted (then trimmed), and messages longer than
500 characters are truncated with an ellipsis. -/
def sanitizeErrorMessage (message : String) : String :=
  if isFatalDuckDbError message then friendlyFatalMessage
  else
    let chars0 := message.data
    let chars1 :=
      match findSubIdx "Stack Trace:".data chars0 with
      | some i => jsTrim (chars0.take i)
      | none => chars0
    let chars2 := jsTrim (removeFrameSegs chars1)
    String.mk (if decide (500 < chars2.length) then chars2.take 500 ++ "...".data else chars2)

/-- Split a character list into its `\n`-separated lines. -/
def splitLines : List Char → List (List Char)
  | [] => [[]]
  | c :: t =>
    if c == '\n' then [] :: splitLines t
    else
      match splitLines t with
      | [] => [[c]]
      | h :: t2 => (c :: h) :: t2

/-- Whether a line matches the SPEC's frame pattern `^\d+\s+(native::|0x)`. -/
def lineMatchesFrameSpec (l : List Char) : Bool :=
  !(l.takeWhile Char.isDigit).isEmpty &&
  (let r1 := l.dropWhile Char.isDigit
   !(r1.takeWhile isJsSpace).isEmpty &&
   (let r2 := r1.dropWhile isJsSpace
    listPrefixOf "native::".data r2 || listPrefixOf "0x".data r2))

/-- Modelled from the spec: the reference sanitizer of §7 of the spec, whose
frame pattern is `^\d+\s+(native::|0x)` — "remove lines matching
`^\d+\s+(native::|0x)`" is read as dropping every line matching the
pattern. -/
def sanitizeErrorMessageSpec (message : String) : String :=
  if isFatalDuckDbError message then friendlyFatalMessage
  else
    let chars0 := message.data
    let chars1 :=
      match findSubIdx "Stack Trace:".data chars0 with
      | some i => jsTrim (chars0.take i)
      | none => chars0
    let kept := (splitLines chars1).filter (fun ln => !(lineMatchesFrameSpec ln))
    let chars2 := jsTrim ((kept.map String.mk).foldr
      (fun ln acc => if acc.isEmpty then ln.data else ln.data ++ '\n' :: acc) [])
    String.mk (if decide (500 < chars2.length) then chars2.take 500 ++ "...".data else chars2)

/-- The reference sanitizer with the pattern the code actually uses: segments
`\n\d+\s+(duckdb::|0x)[^\n]*` are deleted by a left-to-right scan (so the
pattern names `duckdb::`, and a frame line at the very start of the message,
not preceded by a newline, is kept). -/
def sanitizeErrorMessageAmendedRef (message : String) : String :=
  if isFatalDuckDbError message then friendlyFatalMessage
  else
    let chars0 := message.data
    let chars1 :=
      match findSubIdx "Stack Trace:".data chars0 with
      | some i => jsTrim (chars0.take i)
      | none => chars0
    let chars2 := jsTrim (removeFrameSegsAux "duckdb::".data "0x".data chars1.length chars1)
    String.mk (if decide (500 < chars2.length) then chars2.take 500 ++ "...".data else chars2)

/- ### Dispatcher fatal-error recovery (`GdxServer.handleMessage`, filterTypes.ts:182-232) -/

/-- Outcome of one `handleRequest` invocation: a result or a thrown message. -/
inductive ReqOutcome (α : Type) where
  | ok (v : α)
  | err (msg : String)
deriving DecidableEq, Repr

/-- Per-document state kept by the server, restricted to what the recovery
path touches: the keys of `materializedSymbols`. -/
structure DocMats where
  materializedSymbols : List String
deriving DecidableEq, Repr

/-- The server state seen by `handleMessage`: open documents and the engine
generation (bumped by each `teardownDuckDb`/`initializeDuckDb` cycle). -/
structure ServerDocs where
  documents : List (String × DocMats)
  engineGeneration : Nat
deriving DecidableEq, Repr

/-- What one queued request execution did, as observed from outside. -/
structure DispatchResult (α : Type) where
  attempts : Nat
  reinits : Nat
  finalDocs : List (String × DocMats)
  finalGeneration : Nat
  response : ReqOutcome α
deriving Repr

/-- The catch logic of `GdxServer.handleMessage` (filterTypes.ts:200-231).
`firstAttempt` / `retryAttempt` are the outcomes of the first and (when it
happens) second `handleRequest` call.  On a fatal first failure the server
clears every document's materialized map, disposes and re-initializes the
engine, and runs the request once more; both error responses are
sanitized. -/
def handleMessageModel {α : Type} (st : ServerDocs)
    (firstAttempt retryAttempt : ReqOutcome α) : DispatchResult α :=
  match firstAttempt with
  | .ok v => ⟨1, 0, st.documents, st.engineGeneration, .ok v⟩
  | .err fullMessage =>
    if isFatalDuckDbError fullMessage then
      let cleared := st.documents.map (fun p => (p.1, ⟨[]⟩))
      match retryAttempt with
      | .ok v => ⟨2, 1, cleared, st.engineGeneration + 1, .ok v⟩
      | .err retryMessage =>
        ⟨2, 1, cleared, st.engineGeneration + 1, .err (sanitizeErrorMessage retryMessage)⟩
    else ⟨1, 0, st.documents, st.engineGeneration, .err (sanitizeErrorMessage fullMessage)⟩

/- ### Active materializations (`materializeSymbol` / `cancelMaterialization` /
`startBackgroundMaterialization`, filterTypes.ts:244-498) -/

/-- Where the (single, queue-serialized) in-flight request stands relative to
the `activeMaterializations` map: inside `await cancelMaterialization(d)`, or
past it and bound to register a worker for `d`. -/
inductive ReqPhase where
  | cancelling (d : String)
  | ready (d : String)
deriving DecidableEq, Repr

/-- State of the materialization machinery: the `activeMaterializations` map
(documentId ↦ worker id, as an association list), the set of started,
not-yet-settled workers, the phase of the in-flight request, and a fresh-id
counter. -/
structure MatSystem where
  active : List (String × Nat)
  live : List (String × Nat)
  inflight : Option ReqPhase
  nextId : Nat
deriving DecidableEq, Repr

/-- First-match association-list lookup (JS `Map.get`). -/
def lookupA {α : Type} : List (String × α) → String → Option α
  | [], _ => none
  | (k, v) :: t, d => if k = d then some v else lookupA t d

/-- Remove every entry with the given key (JS `Map.delete`). -/
def eraseKeyA {α : Type} : List (String × α) → String → List (String × α)
  | [], _ => []
  | (k, v) :: t, d => if k = d then eraseKeyA t d else (k, v) :: eraseKeyA t d

/-- Atomic transitions of the materialization machinery, one per synchronous
segment of the source:
* `startRequest` — the FIFO queue starts a request (only one at a time).
* `cancelReturn` — `await cancelMaterialization(d)` returns: either there was
  no entry for `d`, or the awaited worker promise settled, and a settling
  worker's `finally` deletes its entry first (filterTypes.ts:385-391); so at
  the return instant `activeMaterializations` has no entry for `d`.
* `registerWorker` — `startBackgroundMaterialization` stores an
  `ActiveMaterialization` under `d` and starts `doWork`
  (filterTypes.ts:276-282,394); only `materializeSymbol` reaches this, and
  only after its `cancelReturn d`.
* `finishRequest` — the request completes without registering (cached symbol,
  `cancelMaterialization`, `closeDocument`, force reload, teardown, ...).
* `settleWorker` — a worker's `finally` runs: the entry under its documentId
  is deleted and the worker settles. -/
inductive MatStep : MatSystem → MatSystem → Prop where
  | startRequest (s : MatSystem) (d : String) :
      s.inflight = none →
      MatStep s { s with inflight := some (.cancelling d) }
  | cancelReturn (s : MatSystem) (d : String) :
      s.inflight = some (.cancelling d) →
      lookupA s.active d = none →
      MatStep s { s with inflight := some (.ready d) }
  | registerWorker (s : MatSystem) (d : String) :
      s.inflight = some (.ready d) →
      MatStep s { active := (d, s.nextId) :: eraseKeyA s.active d,
                  live := (d, s.nextId) :: s.live,
                  inflight := none,
                  nextId := s.nextId + 1 }
  | finishRequest (s : MatSystem) (p : ReqPhase) :
      s.inflight = some p →
      MatStep s { s with inflight := none }
  | settleWorker (s : MatSystem) (d : String) (w : Nat) :
      (d, w) ∈ s.live →
      MatStep s { s with active := eraseKeyA s.active d,
                         live := s.live.erase (d, w) }

/-- The server starts with no documents, no workers, an idle queue. -/
def matInit : MatSystem := ⟨[], [], none, 0⟩

/-- States reachable by any request/worker interleaving. -/
inductive MatReach : MatSystem → Prop where
  | init : MatReach matInit
  | step {s t : MatSystem} : MatReach s → MatStep s t → MatReach t

/-- The inductive invariant: every live worker is the registered entry of its
documentId, live worker ids are below the counter, live workers have pairwise
distinct ids, and a request about to register has no entry under its
documentId. -/
def MatInv (s : MatSystem) : Prop :=
  (∀ d w, (d, w) ∈ s.live → lookupA s.active d = some w) ∧
  (∀ d w, (d, w) ∈ s.live → w < s.nextId) ∧
  s.live.Pairwise (fun a b => a.2 ≠ b.2) ∧
  (∀ d, s.inflight = some (.ready d) → lookupA s.active d = none)

/-- A concrete reachable state used as a witness: one registered worker. -/
def matWitnessState : MatSystem :=
  ⟨[("doc1", 0)], [("doc1", 0)], none, 1⟩

/- ### The background worker `doWork`
(`startBackgroundMaterialization`, filterTypes.ts:284-394) -/

/-- Events the worker can emit (progress ticks are timer-driven and elided;
the claims concern `materializationComplete` / `materializationError`). -/
inductive BgEvent where
  | completeEvt (tableName : String) (columns : List String) (totalRowCount : Nat)
  | errorEvt (cancelled : Bool) (errMsg : Option String)
deriving DecidableEq, Repr

/-- How one execution of `doWork` unfolds.  The `flag…` constructors are runs
where the cancellation flag is observed at one of the four `if
(active.cancelled) return` checkpoints (filterTypes.ts:288,294,331,352); the
`…Fails` constructors are runs where an awaited engine call throws, with
`cancelledFlag` the value of `active.cancelled` seen in the catch block
(`true` when the throw came from `connection.interrupt()`); `success` is an
undisturbed run. -/
inductive WorkerExec where
  | flagBeforeConnect
  | flagAfterConnect
  | flagAfterCreate
  | flagBeforeStore
  | connectFails (msg : String) (cancelledFlag : Bool)
  | loadFails (msg : String) (cancelledFlag : Bool)
  | createFails (msg : String) (cancelledFlag : Bool)
  | statsFails (msg : String) (cancelledFlag : Bool)
  | success (tableName : String) (columns : List String) (totalRowCount : Nat)
deriving DecidableEq, Repr

/-- Externally observable effects of one `doWork` run. -/
structure WorkerOutcome where
  events : List BgEvent
  storedSymbol : Option (String × List String × Nat)
  connOpened : Bool
  connClosed : Bool
  removedActiveEntry : Bool
deriving DecidableEq, Repr

/-- The error event emitted from the catch block (filterTypes.ts:366-384). -/
def catchEvent (msg : String) (cancelledFlag : Bool) : BgEvent :=
  if cancelledFlag then .errorEvt true none
  else .errorEvt false (some (sanitizeErrorMessage msg))

/-- The worker body `doWork` (filterTypes.ts:284-394).  Checkpoint observations return without
emitting anything; exceptions reach the catch block which emits exactly one
`materializationError` (with `cancelled` as observed); a full run stores the
`MaterializedSymbol` and emits `materializationComplete`.  The `finally`
always deletes the `activeMaterializations` entry and closes the background
connection when one was opened. -/
def runWorker : WorkerExec → WorkerOutcome
  | .flagBeforeConnect => ⟨[], none, false, false, true⟩
  | .flagAfterConnect => ⟨[], none, true, true, true⟩
  | .flagAfterCreate => ⟨[], none, true, true, true⟩
  | .flagBeforeStore => ⟨[], none, true, true, true⟩
  | .connectFails msg c => ⟨[catchEvent msg c], none, false, false, true⟩
  | .loadFails msg c => ⟨[catchEvent msg c], none, true, true, true⟩
  | .createFails msg c => ⟨[catchEvent msg c], none, true, true, true⟩
  | .statsFails msg c => ⟨[catchEvent msg c], none, true, true, true⟩
  | .success t cols n => ⟨[.completeEvt t cols n], some (t, cols, n), true, true, true⟩

/-- Whether the run observed a cancellation (flag seen at a checkpoint, or
seen in the catch block after an interrupt-induced throw). -/
def cancelObserved : WorkerExec → Bool
  | .flagBeforeConnect | .flagAfterConnect | .flagAfterCreate | .flagBeforeStore => true
  | .connectFails _ c | .loadFails _ c | .createFails _ c | .statsFails _ c => c
  | .success _ _ _ => false

/-- Whether the cancellation surfaced as an exception (interrupted query). -/
def cancelViaThrow : WorkerExec → Bool
  | .connectFails _ c | .loadFails _ c | .createFails _ c | .statsFails _ c => c
  | _ => false

/-- Recognizer for a `materializationError` event with `cancelled: true`. -/
def isCancelledErrorEvt : BgEvent → Bool
  | .errorEvt true _ => true
  | _ => false

/- ### Temp files across recovery (`DuckdbService` in gdxDocumentManager.ts:528-708,
`GdxServer.handleMessage` recovery, filterTypes.ts:209-227) -/

/-- The part of `DuckdbService` state that owns remote temp files. -/
structure TempFileSvc where
  tempDir : Option String
deriving DecidableEq, Repr

/-- Model of `DuckdbService.registerFile` for a remote source
(gdxDocumentManager.ts:528-546): create the temp directory on first use
(`freshDir` stands for the `mkdtemp` result), write the bytes to a temp path
inside it, and return that path.  `files` is the set of paths on disk. -/
def registerFileRemote (files : List String) (svc : TempFileSvc)
    (freshDir fileName : String) : List String × TempFileSvc × String :=
  let dir := svc.tempDir.getD freshDir
  let tempPath := dir ++ "/" ++ fileName
  (tempPath :: files, ⟨some dir⟩, tempPath)

/-- Model of `DuckdbService.dispose` (gdxDocumentManager.ts:690-708): removes the whole
temp directory recursively (`fs.rm(tempDir, {recursive: true})`) and forgets
it. -/
def disposeService (files : List String) (svc : TempFileSvc) :
    List String × TempFileSvc :=
  match svc.tempDir with
  | some dir => (files.filter (fun f => !(listPrefixOf (dir ++ "/").data f.data)), ⟨none⟩)
  | none => (files, svc)

/-- Model of `DuckdbService.reinitialize` (gdxDocumentManager.ts:676-688): closes the
engine but deliberately does NOT delete the temp directory ("remote files
must survive reinitialize"). -/
def reinitializeService (files : List String) (svc : TempFileSvc) :
    List String × TempFileSvc :=
  (files, svc)

/-- The server's actual recovery path (filterTypes.ts:216-217 via
`teardownDuckDb` at 146-169 and `initializeDuckDb` at 133-144): it calls
`this.duckdb.dispose()` and then constructs a fresh `DuckdbService`, whose
`tempDir` starts out unset. -/
def serverRecoveryReinit (files : List String) (svc : TempFileSvc) :
    List String × TempFileSvc :=
  let disposed := disposeService files svc
  (disposed.1, ⟨none⟩)

/- ### `getDomainValues` (server handler, filterTypes.ts:553-592; engine side,
gdxDocumentManager.ts:582-628) -/

/-- Embedding of `MaterializedSymbol` (filterTypes.ts:61-65). -/
structure MaterializedSymbol where
  tableName : String
  columns : List String
  totalRowCount : Nat
deriving DecidableEq, Repr

/-- Embedding of `DocumentState` (filterTypes.ts:67-72), with `symbols` elided (the
handler paths under verification do not read it). -/
structure DocumentState where
  source : String
  localPath : String
  materializedSymbols : List (String × MaterializedSymbol)
deriving DecidableEq, Repr

/-- The keys/values extraction loop of `DuckdbService.getDomainValues`
(gdxDocumentManager.ts:602-616): for each map entry, when its list is
non-empty push the key and the escaped FIRST value; later values are never
read. -/
def dimFilterEntries : List (String × List String) → List String × List String
  | [] => ([], [])
  | (key, vals) :: rest =>
    let tail := dimFilterEntries rest
    match vals with
    | [] => tail
    | v :: _ => (key :: tail.1, escapeSqlQuote v :: tail.2)

/-- The SQL text built by `DuckdbService.getDomainValues`
(gdxDocumentManager.ts:582-628): base call plus, when at least one dimension
survives, a `dimension_filters => map([...], [...])` argument. -/
def getDomainValuesSql (filePath symbol : String) (dimIndex : Int)
    (dimensionFilters : Option (List (String × List String))) : String :=
  let escapedPath := escapeSqlQuote filePath
  let base := "SELECT value FROM gdx_domain_values(\x27" ++ escapedPath ++
    "\x27, \x27" ++ symbol ++ "\x27, " ++ toString dimIndex
  let sql :=
    match dimensionFilters with
    | some fs =>
      if 0 < fs.length then
        let entries := dimFilterEntries fs
        if 0 < entries.1.length then
          base ++ ", dimension_filters => map([\x27" ++
            String.intercalate "\x27,\x27" entries.1 ++ "\x27], [\x27" ++
            String.intercalate "\x27,\x27" entries.2 ++ "\x27])"
        else base
      else base
    | none => base
  sql ++ ")"

/-- Keep only the first selected value of each dimension, dropping dimensions
with an empty list. -/
def truncFilters (fs : List (String × List String)) : List (String × List String) :=
  fs.filterMap (fun kv =>
    match kv.2 with
    | [] => none
    | v :: _ => some (kv.1, [v]))

/-- The `getDomainValues` request handler (filterTypes.ts:553-592),
parameterized by the engine's answer to a query.  Returns the queries issued
to the engine together with the `values` result.  On the materialized path a
missing `dim_<dimIndex>` column short-circuits to `{values: []}`; otherwise
the table is queried.  Non-materialized symbols fall back to
`gdx_domain_values` with the forwarded `dimensionFilters`. -/
def getDomainValuesHandler (engine : String → List String)
    (documents : List (String × DocumentState)) (documentId symbolName : String)
    (dimIndex : Int) (dimensionFilters : Option (List (String × List String))) :
    Except String (List String × List String) :=
  match lookupA documents documentId with
  | none => .error "Document not open"
  | some doc =>
    match lookupA doc.materializedSymbols symbolName with
    | some materialized =>
      let colName := "dim_" ++ toString dimIndex
      if materialized.columns.contains colName then
        let sql := "SELECT DISTINCT \"" ++ colName ++ "\" FROM \"" ++
          materialized.tableName ++ "\" ORDER BY \"" ++ colName ++ "\""
        .ok ([sql], engine sql)
      else .ok ([], [])
    | none =>
      let sql := getDomainValuesSql doc.localPath symbolName dimIndex dimensionFilters
      .ok ([sql], engine sql)

/- ### Concrete inputs used by counterexamples and scenarios -/

/-- The numeric filter of scenario S6. -/
def s6NumericFilter : NumericFilterState :=
  ⟨some "0", some "10", true, false, true, true, true, true, true⟩

/-- A numeric filter with only `showPosInf` disabled. -/
def posInfOnlyFilter : NumericFilterState :=
  ⟨none, none, false, true, true, false, true, true, true⟩

/-- An error message with a `native::` frame line and a `duckdb::` frame
line. -/
def c5CexInput : String := "boom\n1 native::a\n2 duckdb::b"

/- ### Theorems -/

/- #### C4: the S6 scenario and the empty filter list -/

/-- C4: compiling the S6 numeric filter `{columnName: "value", min: 0,
max: 10, exclude: true, showEPS: false, all other show flags true}` yields
`WHERE (NOT (CAST("value" AS VARCHAR) NOT IN ('EPS') AND "value" >= 0 AND
"value" <= 10))`, and compiling the empty filter list yields the empty
string. -/
theorem gdx_c4_s6_filter_compiler :
    buildWhereClause [⟨"value", .numeric s6NumericFilter⟩] =
      " WHERE (NOT (CAST(\"value\" AS VARCHAR) NOT IN (\x27EPS\x27) AND \"value\" >= 0 AND \"value\" <= 10))" ∧
    buildWhereClause [] = "" := by
  exact ⟨by decide, by decide⟩

/- #### C3: contents of the NOT IN list -/

/-- C3 counterexample: for a numeric filter whose only disabled special value
is `+INF` (all of `showEPS`, `showNA`, `showUNDF` are true), the claim says
the `NOT IN` list is empty (and hence absent); but the code places `'+INF'`
in `excludedSpecialValues` and emits `CAST("v" AS VARCHAR) NOT IN ('+INF')`
alongside the infinity inequality. -/
theorem gdx_c3_counterexample :
    "+INF" ∈ excludedSpecialValues posInfOnlyFilter ∧
    posInfOnlyFilter.showEPS = true ∧ posInfOnlyFilter.showNA = true ∧
    posInfOnlyFilter.showUNDF = true ∧
    buildWhereClause [⟨"v", .numeric posInfOnlyFilter⟩] =
      " WHERE (\"v\" != CAST(\x27Infinity\x27 AS DOUBLE) AND CAST(\"v\" AS VARCHAR) NOT IN (\x27+INF\x27))" := by
  refine ⟨by decide, rfl, rfl, rfl, by decide⟩

/-- C3 amended: the `NOT IN` list contains exactly the disabled specials
among `EPS`, `NA`, `UNDF` **plus** `'+INF'` when `showPosInf` is false and
`'-INF'` when `showNegInf` is false; disabled infinities additionally
contribute the separate `!= CAST('Infinity'/'-Infinity' AS DOUBLE)`
conjuncts. -/
theorem gdx_c3_amended (f : NumericFilterState) (v columnName : String) :
    (v ∈ excludedSpecialValues f ↔
      (v = "EPS" ∧ f.showEPS = false) ∨ (v = "NA" ∧ f.showNA = false) ∨
      (v = "UNDF" ∧ f.showUNDF = false) ∨ (v = "+INF" ∧ f.showPosInf = false) ∨
      (v = "-INF" ∧ f.showNegInf = false)) ∧
    (f.showPosInf = false →
      ("\"" ++ columnName ++ "\" != CAST(\x27Infinity\x27 AS DOUBLE)") ∈ numericConditions columnName f) ∧
    (f.showNegInf = false →
      ("\"" ++ columnName ++ "\" != CAST(\x27-Infinity\x27 AS DOUBLE)") ∈ numericConditions columnName f) := by
  obtain ⟨mn, mx, ex, eps, na, pi, ni, un, ac⟩ := f
  refine ⟨?_, ?_, ?_⟩ <;>
    cases eps <;> cases na <;> cases pi <;> cases ni <;> cases un <;>
      simp [excludedSpecialValues, numericConditions]

/-- Witness for `gdx_c3_amended` at a concrete filter and column. -/
theorem gdx_c3_amended_witness :
    ("\"v\" != CAST(\x27Infinity\x27 AS DOUBLE)") ∈ numericConditions "v" posInfOnlyFilter := by
  exact (gdx_c3_amended posInfOnlyFilter "+INF" "v").2.1 rfl

/- #### C8: `showAcronyms` has no compilation effect -/

/-- Helper: the clause of a single filter is unchanged by toggling
`showAcronyms`. -/
theorem clauseOfFilter_toggleShowAcronyms (f : ColumnFilter) :
    clauseOfFilter (toggleShowAcronyms f) = clauseOfFilter f := by
  obtain ⟨c, fv⟩ := f
  cases fv with
  | numeric s => obtain ⟨mn, mx, ex, eps, na, pi, ni, un, ac⟩ := s; rfl
  | text vs => rfl

/-- C8: the compiled WHERE clause is unchanged when the `showAcronyms` flag of
any one filter in the list is toggled. -/
theorem gdx_c8_showAcronyms_noop (pre : List ColumnFilter) (f : ColumnFilter)
    (post : List ColumnFilter) :
    buildWhereClause (pre ++ toggleShowAcronyms f :: post) =
      buildWhereClause (pre ++ f :: post) := by
  unfold buildWhereClause
  simp only [List.filterMap_append, List.filterMap_cons,
    clauseOfFilter_toggleShowAcronyms]

/- #### C5: the sanitizer versus the spec's reference definition -/

/-- C5 counterexample: on a message with a `native::` frame line and a
`duckdb::` frame line, the code keeps the `native::` line and deletes the
`duckdb::` one, while the spec's reference definition (pattern
`^\d+\s+(native::|0x)`) does the opposite. -/
theorem gdx_c5_counterexample :
    sanitizeErrorMessage c5CexInput ≠ sanitizeErrorMessageSpec c5CexInput ∧
    sanitizeErrorMessage c5CexInput = "boom\n1 native::a" ∧
    sanitizeErrorMessageSpec c5CexInput = "boom\n2 duckdb::b" := by
  refine ⟨by decide, by decide, by decide⟩

/-- C5 amended: the sanitizer equals the reference definition whose frame
pattern is `\n\d+\s+(duckdb::|0x)[^\n]*` deleted by a global left-to-right
scan — i.e. the pattern names `duckdb::` (not `native::`) and only frame
lines preceded by a newline are removed; the fatal-pattern replacement,
`Stack Trace:` stripping and 500-character truncation are as claimed. -/
theorem gdx_c5_amended (message : String) :
    sanitizeErrorMessage message = sanitizeErrorMessageAmendedRef message := rfl

/- #### C1: fatal-error recovery retries exactly once -/

/-- C1: for any server state and any outcomes of the two `handleRequest`
attempts, `handleMessage` makes at most two attempts; a successful or
non-fatal first attempt is never retried and never re-initializes the engine
(the non-fatal error is surfaced sanitized); a fatal first failure clears
every document's materialized map, re-initializes exactly once, retries
exactly once, and surfaces the sanitized retry error when the retry also
fails. -/
theorem gdx_c1_fatal_recovery_retry {α : Type} (st : ServerDocs)
    (first retry : ReqOutcome α) :
    (handleMessageModel st first retry).attempts ≤ 2 ∧
    (∀ v, first = .ok v →
      (handleMessageModel st first retry).attempts = 1 ∧
      (handleMessageModel st first retry).reinits = 0 ∧
      (handleMessageModel st first retry).response = .ok v) ∧
    (∀ m, first = .err m → isFatalDuckDbError m = false →
      (handleMessageModel st first retry).attempts = 1 ∧
      (handleMessageModel st first retry).reinits = 0 ∧
      (handleMessageModel st first retry).response = .err (sanitizeErrorMessage m)) ∧
    (∀ m, first = .err m → isFatalDuckDbError m = true →
      (handleMessageModel st first retry).attempts = 2 ∧
      (handleMessageModel st first retry).reinits = 1 ∧
      (∀ p ∈ (handleMessageModel st first retry).finalDocs, p.2.materializedSymbols = []) ∧
      (∀ v, retry = .ok v → (handleMessageModel st first retry).response = .ok v) ∧
      (∀ m2, retry = .err m2 →
        (handleMessageModel st first retry).response = .err (sanitizeErrorMessage m2))) := by
  rcases first with v | m
  · rcases retry with w | m2 <;> simp [handleMessageModel]
  · rcases retry with w | m2 <;> cases hf : isFatalDuckDbError m <;>
      simp [handleMessageModel, hf, List.mem_map] <;>
        (intro p q a b hab hap hbq; subst hbq; rfl)

/-- Witness for `gdx_c1_fatal_recovery_retry`: a fatal first failure followed
by a failing retry. -/
theorem gdx_c1_fatal_recovery_retry_witness :
    (handleMessageModel (⟨[("d1", ⟨["x"]⟩)], 0⟩ : ServerDocs)
        (.err "IO Error: The database has been invalidated!" : ReqOutcome Nat)
        (.err "still broken")).attempts = 2 ∧
    (handleMessageModel (⟨[("d1", ⟨["x"]⟩)], 0⟩ : ServerDocs)
        (.err "IO Error: The database has been invalidated!" : ReqOutcome Nat)
        (.err "still broken")).reinits = 1 ∧
    (handleMessageModel (⟨[("d1", ⟨["x"]⟩)], 0⟩ : ServerDocs)
        (.err "IO Error: The database has been invalidated!" : ReqOutcome Nat)
        (.err "still broken")).response = .err (sanitizeErrorMessage "still broken") := by
  have h := gdx_c1_fatal_recovery_retry (⟨[("d1", ⟨["x"]⟩)], 0⟩ : ServerDocs)
    (.err "IO Error: The database has been invalidated!" : ReqOutcome Nat)
    (.err "still broken")
  have hfatal := h.2.2.2 "IO Error: The database has been invalidated!" rfl (by decide)
  exact ⟨hfatal.1, hfatal.2.1, hfatal.2.2.2.2 "still broken" rfl⟩

/- #### C7: events of a cancelled worker -/

/-- C7 counterexample: a worker that observes the cancelled flag at its very
first checkpoint returns silently — it emits no `materializationError` event
at all, contradicting "emits exactly one materializationError event with
cancelled: true". -/
theorem gdx_c7_counterexample :
    cancelObserved .flagBeforeConnect = true ∧
    (runWorker .flagBeforeConnect).events = [] ∧
    (runWorker .flagBeforeConnect).events.countP isCancelledErrorEvt = 0 := by
  exact ⟨rfl, rfl, rfl⟩

/-- C7 amended: a cancelled worker stores nothing in the materialized map,
always removes its `activeMaterializations` entry, closes the background
connection whenever one was opened, emits **at most** one
`materializationError{cancelled: true}` and no other event — with exactly one
such event precisely when the cancellation surfaced as an
interrupted-statement exception (observation at a checkpoint returns
silently). -/
theorem gdx_c7_amended (e : WorkerExec) (hc : cancelObserved e = true) :
    (runWorker e).storedSymbol = none ∧
    (runWorker e).removedActiveEntry = true ∧
    ((runWorker e).connOpened = true → (runWorker e).connClosed = true) ∧
    (runWorker e).events.countP isCancelledErrorEvt ≤ 1 ∧
    (∀ ev ∈ (runWorker e).events, isCancelledErrorEvt ev = true) ∧
    (cancelViaThrow e = true →
      (runWorker e).events.countP isCancelledErrorEvt = 1) := by
  cases e <;>
    simp_all [runWorker, cancelObserved, cancelViaThrow, catchEvent,
      isCancelledErrorEvt, List.countP_cons, List.countP_nil]

/-- Witness for `gdx_c7_amended`: an interrupted `CREATE TABLE`. -/
theorem gdx_c7_amended_witness :
    (runWorker (.createFails "INTERRUPT Error" true)).storedSymbol = none ∧
    (runWorker (.createFails "INTERRUPT Error" true)).events.countP isCancelledErrorEvt = 1 := by
  have h := gdx_c7_amended (.createFails "INTERRUPT Error" true) rfl
  exact ⟨h.1, h.2.2.2.2.2 rfl⟩

/- #### C6: remote temp files do not survive recovery (code bug) -/

/-- C6: the claim (and the comment inside `DuckdbService.reinitialize`) says
remote temp files survive a recovery re-initialization; but the server's
recovery path calls `DuckdbService.dispose()` — which removes the temp
directory recursively — and then constructs a fresh service.  At the failing
input (one registered remote temp file) the file is gone after recovery,
while the unused `reinitialize()` would have preserved it. -/
theorem gdx_c6_recovery_deletes_remote_tempfile :
    (registerFileRemote [] ⟨none⟩ "/tmp/gdx-a1b2c3" "gdx_9f.gdx").2.2 ∈
      (registerFileRemote [] ⟨none⟩ "/tmp/gdx-a1b2c3" "gdx_9f.gdx").1 ∧
    (registerFileRemote [] ⟨none⟩ "/tmp/gdx-a1b2c3" "gdx_9f.gdx").2.2 ∉
      (serverRecoveryReinit (registerFileRemote [] ⟨none⟩ "/tmp/gdx-a1b2c3" "gdx_9f.gdx").1
        (registerFileRemote [] ⟨none⟩ "/tmp/gdx-a1b2c3" "gdx_9f.gdx").2.1).1 ∧
    (registerFileRemote [] ⟨none⟩ "/tmp/gdx-a1b2c3" "gdx_9f.gdx").2.2 ∈
      (reinitializeService (registerFileRemote [] ⟨none⟩ "/tmp/gdx-a1b2c3" "gdx_9f.gdx").1
        (registerFileRemote [] ⟨none⟩ "/tmp/gdx-a1b2c3" "gdx_9f.gdx").2.1).1 := by
  refine ⟨by decide, by decide, by decide⟩

/- #### C2: at most one active materialization per documentId -/

/-- Helper: lookup after deleting a key. -/
theorem lookupA_eraseKeyA {α : Type} (l : List (String × α)) (d d' : String) :
    lookupA (eraseKeyA l d) d' = if d' = d then none else lookupA l d' := by
  induction l with
  | nil => simp [eraseKeyA, lookupA]
  | cons p t ih =>
    obtain ⟨k, v⟩ := p
    by_cases hk : k = d
    · have hne : eraseKeyA ((k, v) :: t) d = eraseKeyA t d := by simp [eraseKeyA, hk]
      by_cases h' : d' = d
      · rw [hne, ih, if_pos h', if_pos h']
      · have hkd' : ¬ k = d' := fun h => h' ((h ▸ hk : d' = d))
        rw [hne, ih, if_neg h', if_neg h']
        simp [lookupA, hkd']
    · have hne : eraseKeyA ((k, v) :: t) d = (k, v) :: eraseKeyA t d := by
        simp [eraseKeyA, hk]
      rw [hne]
      by_cases hkd' : k = d'
      · have h' : ¬ d' = d := fun h => hk (hkd'.trans h)
        simp [lookupA, hkd', h']
      · simp [lookupA, hkd', ih]

/-- Helper: every step of the materialization machinery preserves the
invariant. -/
theorem matInv_step {s t : MatSystem} (hs : MatInv s) (h : MatStep s t) :
    MatInv t := by
  obtain ⟨h1, h2, h3, h4⟩ := hs
  cases h with
  | startRequest d hin =>
    refine ⟨h1, h2, h3, ?_⟩
    intro d' hd'
    simp at hd'
  | cancelReturn d hin hl =>
    refine ⟨h1, h2, h3, ?_⟩
    intro d' hd'
    simp at hd'
    subst hd'
    exact hl
  | registerWorker d hin =>
    refine ⟨?_, ?_, ?_, ?_⟩
    · intro d' w' hmem
      rcases List.mem_cons.mp hmem with heq | hold
      · obtain ⟨rfl, rfl⟩ : d' = d ∧ w' = s.nextId := by
          simpa [Prod.ext_iff] using heq
        simp [lookupA]
      · have hl := h1 d' w' hold
        by_cases hd : d' = d
        · subst hd
          rw [h4 d' hin] at hl
          exact absurd hl (by simp)
        · have hdd' : ¬ d = d' := fun h => hd h.symm
          simp [lookupA, hdd', lookupA_eraseKeyA, hd, hl]
    · intro d' w' hmem
      rcases List.mem_cons.mp hmem with heq | hold
      · obtain ⟨rfl, rfl⟩ : d' = d ∧ w' = s.nextId := by
          simpa [Prod.ext_iff] using heq
        exact Nat.lt_succ_self _
      · exact Nat.lt_succ_of_lt (h2 d' w' hold)
    · refine List.Pairwise.cons ?_ h3
      intro b hb
      have hb' : (b.1, b.2) ∈ s.live := by simpa using hb
      exact Nat.ne_of_gt (h2 b.1 b.2 hb')
    · intro d' hd'
      simp at hd'
  | finishRequest p hin =>
    refine ⟨h1, h2, h3, ?_⟩
    intro d' hd'
    simp at hd'
  | settleWorker d w hw =>
    have nodup : s.live.Nodup :=
      h3.imp (fun hne heq => hne (congrArg Prod.snd heq))
    refine ⟨?_, ?_, ?_, ?_⟩
    · intro d' w' hmem
      have hmem' : (d', w') ∈ s.live := List.mem_of_mem_erase hmem
      have hne : (d', w') ≠ (d, w) := by
        intro heq
        rw [heq] at hmem
        exact (List.Nodup.not_mem_erase nodup) hmem
      have hl := h1 d' w' hmem'
      by_cases hd : d' = d
      · subst hd
        have hw' := h1 d' w hw
        rw [hl] at hw'
        have hww : w' = w := by injection hw'
        exact absurd (by rw [hww]) hne
      · rw [lookupA_eraseKeyA]
        simp [hd, hl]
    · intro d' w' hmem
      exact h2 d' w' (List.mem_of_mem_erase hmem)
    · exact List.Pairwise.sublist (List.erase_sublist _ _) h3
    · intro d' hd'
      have hl := h4 d' hd'
      rw [lookupA_eraseKeyA]
      by_cases hdd : d' = d <;> simp [hdd, hl]

/-- Helper: the invariant holds in every reachable state. -/
theorem matInv_reach {s : MatSystem} (h : MatReach s) : MatInv s := by
  induction h with
  | init =>
    exact ⟨fun d w hm => by simp [matInit] at hm,
           fun d w hm => by simp [matInit] at hm,
           by simp [matInit],
           fun d hm => by simp [matInit] at hm⟩
  | step _ hstep ih => exact matInv_step ih hstep

/-- Helper: a list of live workers in which every worker is its document's
registered entry and worker ids are pairwise distinct has at most one entry
per documentId. -/
theorem liveCount_le_one (activeL : List (String × Nat))
    (live : List (String × Nat))
    (h1 : ∀ d w, (d, w) ∈ live → lookupA activeL d = some w)
    (h3 : live.Pairwise (fun a b => a.2 ≠ b.2)) (d : String) :
    (live.filter (fun p => p.1 == d)).length ≤ 1 := by
  induction live with
  | nil => simp
  | cons p t ih =>
    have h1t : ∀ d' w, (d', w) ∈ t → lookupA activeL d' = some w :=
      fun d' w hm => h1 d' w (List.mem_cons_of_mem _ hm)
    have h3t : t.Pairwise (fun a b => a.2 ≠ b.2) := h3.of_cons
    cases hp : (p.1 == d) with
    | false =>
      simpa [List.filter_cons, hp] using ih h1t h3t
    | true =>
      have hpd : p.1 = d := by simpa using hp
      have hfilter_t : t.filter (fun q => q.1 == d) = [] := by
        rw [List.filter_eq_nil_iff]
        intro q hq hqd
        have hqd' : q.1 = d := by simpa using hqd
        have hp_mem : (d, p.2) ∈ p :: t := by
          rw [← hpd]
          exact List.mem_cons_self _ _
        have hq_mem : (d, q.2) ∈ p :: t := by
          rw [← hqd']
          exact List.mem_cons_of_mem _ (by simpa using hq)
        have e1 := h1 d p.2 hp_mem
        have e2 := h1 d q.2 hq_mem
        rw [e1] at e2
        have heq : p.2 = q.2 := by injection e2
        exact (List.pairwise_cons.mp h3).1 q hq heq
      simp [List.filter_cons, hp, hfilter_t]

/-- C2: in every state reachable by any interleaving of requests and worker
settlements, at most one live background materialization exists per
documentId — `materializeSymbol` registers a worker only after
`cancelMaterialization` has returned (which requires the previous worker for
that documentId to have settled and removed its entry), and every worker
removes its entry when it settles. -/
theorem gdx_c2_at_most_one_active_materialization (s : MatSystem)
    (h : MatReach s) (d : String) :
    (s.live.filter (fun p => p.1 == d)).length ≤ 1 := by
  obtain ⟨h1, _, h3, _⟩ := matInv_reach h
  exact liveCount_le_one s.active s.live h1 h3 d

/-- Witness for `gdx_c2_at_most_one_active_materialization`: the state after
start-request, cancel-return and worker registration for `doc1`. -/
theorem gdx_c2_at_most_one_active_materialization_witness :
    (matWitnessState.live.filter (fun p => p.1 == "doc1")).length ≤ 1 := by
  have hreach : MatReach matWitnessState :=
    MatReach.step
      (MatReach.step
        (MatReach.step MatReach.init (MatStep.startRequest matInit "doc1" rfl))
        (MatStep.cancelReturn _ "doc1" rfl rfl))
      (MatStep.registerWorker _ "doc1" rfl)
  exact gdx_c2_at_most_one_active_materialization matWitnessState hreach "doc1"

/- #### C9: `getDomainValues` on the materialized path -/

/-- C9: when the symbol is materialized and the recorded column list does not
contain `dim_<dimIndex>`, the handler answers `{values: []}` without issuing
any engine query; and on the materialized path the result never depends on
the `dimensionFilters` parameter. -/
theorem gdx_c9_materialized_path (engine : String → List String)
    (documents : List (String × DocumentState)) (documentId symbolName : String)
    (dimIndex : Int) (dimensionFilters : Option (List (String × List String)))
    (doc : DocumentState) (materialized : MaterializedSymbol)
    (hdoc : lookupA documents documentId = some doc)
    (hm : lookupA doc.materializedSymbols symbolName = some materialized) :
    (materialized.columns.contains ("dim_" ++ toString dimIndex) = false →
      getDomainValuesHandler engine documents documentId symbolName dimIndex
        dimensionFilters = .ok ([], [])) ∧
    (∀ otherFilters,
      getDomainValuesHandler engine documents documentId symbolName dimIndex
          dimensionFilters =
        getDomainValuesHandler engine documents documentId symbolName dimIndex
          otherFilters) := by
  constructor
  · intro hcol
    have hnotmem : "dim_" ++ toString dimIndex ∉ materialized.columns := by
      simpa using hcol
    simp [getDomainValuesHandler, hdoc, hm, hnotmem]
  · intro otherFilters
    simp [getDomainValuesHandler, hdoc, hm]

/-- Witness for `gdx_c9_materialized_path`: a materialized one-dimensional
symbol queried for the missing column `dim_1`. -/
theorem gdx_c9_materialized_path_witness :
    getDomainValuesHandler (fun _ => [])
      [("d1", ⟨"src.gdx", "/tmp/src.gdx", [("x", ⟨"d1__x", ["dim_2", "value"], 5⟩)]⟩)]
      "d1" "x" 1 none = .ok ([], []) := by
  have h := gdx_c9_materialized_path (fun _ => [])
    [("d1", ⟨"src.gdx", "/tmp/src.gdx", [("x", ⟨"d1__x", ["dim_2", "value"], 5⟩)]⟩)]
    "d1" "x" 1 none
    ⟨"src.gdx", "/tmp/src.gdx", [("x", ⟨"d1__x", ["dim_2", "value"], 5⟩)]⟩
    ⟨"d1__x", ["dim_2", "value"], 5⟩ rfl rfl
  exact h.1 rfl

/- #### C10: only the first selected value per dimension reaches the engine -/

/-- Helper: truncating every dimension's selection to its first value (and
dropping empty selections) does not change the extracted keys/values. -/
theorem dimFilterEntries_trunc (fs : List (String × List String)) :
    dimFilterEntries (truncFilters fs) = dimFilterEntries fs := by
  induction fs with
  | nil => rfl
  | cons kv t ih =>
    obtain ⟨k, vs⟩ := kv
    cases vs with
    | nil => simpa [truncFilters, dimFilterEntries, List.filterMap_cons] using ih
    | cons v vt =>
      have hstep : truncFilters ((k, v :: vt) :: t) = (k, [v]) :: truncFilters t := by
        simp [truncFilters, List.filterMap_cons]
      rw [hstep]
      simp [dimFilterEntries, ih]

/-- Helper: the key list is empty exactly when every selection is empty. -/
theorem dimFilterEntries_keys_empty_iff (fs : List (String × List String)) :
    (dimFilterEntries fs).1 = [] ↔ truncFilters fs = [] := by
  induction fs with
  | nil => simp [dimFilterEntries, truncFilters]
  | cons kv t ih =>
    obtain ⟨k, vs⟩ := kv
    cases vs with
    | nil => simpa [dimFilterEntries, truncFilters, List.filterMap_cons] using ih
    | cons v vt => simp [dimFilterEntries, truncFilters, List.filterMap_cons]

/-- Helper: the extraction keeps exactly the dimensions with a non-empty
selection, in order, pairing each with its escaped first value. -/
theorem dimFilterEntries_spec (fs : List (String × List String)) :
    dimFilterEntries fs =
      ((fs.filter (fun kv => !kv.2.isEmpty)).map Prod.fst,
       (fs.filter (fun kv => !kv.2.isEmpty)).map
         (fun kv => escapeSqlQuote (kv.2.headD ""))) := by
  induction fs with
  | nil => rfl
  | cons kv t ih =>
    obtain ⟨k, vs⟩ := kv
    cases vs with
    | nil => simpa [dimFilterEntries, List.filter_cons] using ih
    | cons v vt => simp [dimFilterEntries, List.filter_cons, ih]

/-- C10: on the non-materialized fallback, the SQL that reaches the engine is
unchanged if every dimension's selection list is truncated to its first value
and empty selections are dropped — i.e. only the first selected value per
dimension is placed into the `dimension_filters` map, later values are
silently dropped, and empty dimensions are omitted (the second conjunct gives
the exact keys/values extracted). -/
theorem gdx_c10_first_value_only (filePath symbol : String) (dimIndex : Int)
    (fs : List (String × List String)) :
    getDomainValuesSql filePath symbol dimIndex (some fs) =
      getDomainValuesSql filePath symbol dimIndex (some (truncFilters fs)) ∧
    dimFilterEntries fs =
      ((fs.filter (fun kv => !kv.2.isEmpty)).map Prod.fst,
       (fs.filter (fun kv => !kv.2.isEmpty)).map
         (fun kv => escapeSqlQuote (kv.2.headD ""))) := by
  refine ⟨?_, dimFilterEntries_spec fs⟩
  cases fs with
  | nil => rfl
  | cons kv t =>
    by_cases ht : truncFilters (kv :: t) = []
    · have hkeys : (dimFilterEntries (kv :: t)).1 = [] :=
        (dimFilterEntries_keys_empty_iff _).mpr ht
      simp [getDomainValuesSql, ht, hkeys]
    · have hpos : 0 < (truncFilters (kv :: t)).length := List.length_pos.mpr ht
      have hkeys := dimFilterEntries_trunc (kv :: t)
      simp [getDomainValuesSql, hpos, hkeys]
